import Mathlib

/-!
Shallow embedding of `src/background/browser-action.ts` from the
10ten-ja-reader repository: the browser-action update coalescer
(`updateBrowserAction`), the visual-state derivation and effect application
(`doUpdateBrowserAction`, `setIcon`), the default-icon helper
(`setDefaultToolbarIcon`), and a model of the `throttle` rate-limiter
utility it imports.
-/

/-- The data series handled by the dictionary subsystem.  Mirrors the series
used by `browser-action.ts`: the keys of its `seriesColors` table
(`words`, `names`, `kanji`, `radicals`). -/
inductive DataSeries
  | words
  | names
  | kanji
  | radicals
  deriving DecidableEq, Repr

/-- Modelled from the spec: `SeriesLoadState ∈ {init, loading, ok, error,
unloaded}` (§3) — the type of per-series load states produced by the
`jpdict` module, which is outside the provided sources.  `browser-action.ts`
only compares these states against the string literals `'ok'`, `'init'`,
`'loading'` and `'unloaded'`. -/
inductive DataSeriesState
  | init
  | loading
  | ok
  | error
  | unloaded
  deriving DecidableEq, Repr

/-- State of a single data series (`jpdictState[series].state`). -/
structure SeriesState where
  state : DataSeriesState
  deriving DecidableEq, Repr

/-- State of the `words` series, which additionally tracks the fallback
database state (`jpdictState.words.fallbackState`). -/
structure WordsState where
  state : DataSeriesState
  fallbackState : DataSeriesState
  deriving DecidableEq, Repr

/-- The update-progress state (`jpdictState.updateState`): a tagged variant
`idle`, `checking { series }` or `updating { series, totalProgress }`.
`totalProgress` (a JavaScript number in `[0,1]`) is modelled as a rational. -/
inductive UpdateState
  | idle
  | checking (series : DataSeries)
  | updating (series : DataSeries) (totalProgress : ℚ)
  deriving DecidableEq, Repr

/-- The most recent fatal update error, when set: only its `name` field is
inspected by `browser-action.ts`. -/
structure UpdateError where
  name : String
  deriving DecidableEq, Repr

/-- The slice of `JpdictStateWithFallback` read by `browser-action.ts`:
per-series load states, the update-progress state and the last update
error. -/
structure JpdictStateWithFallback where
  words : WordsState
  kanji : SeriesState
  names : SeriesState
  radicals : SeriesState
  updateState : UpdateState
  updateError : Option UpdateError
  deriving DecidableEq, Repr

/-- The icon style preference: `'default' | 'sky'`. -/
inductive ToolbarIcon
  | default
  | sky
  deriving DecidableEq, Repr

/-- `BrowserActionState` — the snapshot passed to `updateBrowserAction`.
`tabId : number | undefined` is modelled as `Option Int`. -/
structure BrowserActionState where
  enabled : Bool
  jpdictState : JpdictStateWithFallback
  tabId : Option Int
  toolbarIcon : ToolbarIcon
  deriving DecidableEq, Repr

/-- The major data series, as exported by the `jpdict-idb` library
(`allMajorDataSeries`): `kanji`, `names` and `words` (`radicals` is not a
major series).  `doUpdateBrowserAction` iterates over this list to decide
whether some database is not `ok`. -/
def allMajorDataSeries : List DataSeries := [.kanji, .names, .words]

/-- `jpdictState[series].state` — field lookup by series name. -/
def JpdictStateWithFallback.seriesState (js : JpdictStateWithFallback) :
    DataSeries → DataSeriesState
  | .words => js.words.state
  | .kanji => js.kanji.state
  | .names => js.names.state
  | .radicals => js.radicals.state

/-- Tooltip messages.  `browser-action.ts` obtains tooltip strings with
`browser.i18n.getMessage`; each constructor stands for one message key (with
its substitution arguments), so that distinct keys yield distinct values. -/
inductive Tooltip
  | toggleEnabled
  | toggleLoading
  | toggleDisabled
  | errorLoadingDictionary
  | toggleChecking
  | toggleDownloading (series : DataSeries) (percent : Int)
  | toggleUpdateError
  deriving DecidableEq, Repr

/-- JavaScript `Math.round`: rounds half toward positive infinity, i.e.
`⌊x + 1/2⌋`. -/
def jsRound (q : ℚ) : Int := (q + 1 / 2).floor

/-- The fixed `seriesColors` table of `doUpdateBrowserAction`. -/
def seriesColors : DataSeries → String
  | .words => "green"
  | .names => "blue"
  | .kanji => "purple"
  | .radicals => "purple"

/-- Lines 64–97 of `doUpdateBrowserAction`: the initial
`iconFilenameParts` (`['10ten']`, plus `'sky'` for the sky variant) and the
base icon type / tooltip chosen from the enablement flag and the `words`
load states. -/
def baseIconAndTooltip (st : BrowserActionState) : List String × Tooltip :=
  let parts0 : List String := ["10ten"]
  let parts1 := if st.toolbarIcon = .sky then parts0 ++ ["sky"] else parts0
  if st.enabled then
    let jpdictWords := st.jpdictState.words.state
    let fallbackWords := st.jpdictState.words.fallbackState
    if jpdictWords = .ok ∨ fallbackWords = .ok then
      (parts1, .toggleEnabled)
    else if jpdictWords = .init ∨ fallbackWords = .loading then
      (parts1, .toggleLoading)
    else if fallbackWords = .unloaded then
      (parts1, .toggleEnabled)
    else
      (parts1 ++ ["error"], .errorLoadingDictionary)
  else
    (parts1 ++ ["disabled"], .toggleDisabled)

/-- Lines 106–136 of `doUpdateBrowserAction`: overlay the update-progress
information on the icon filename parts and tooltip.  In the `updating` case
the progress suffix is only added when the parts do not already include
`'error'`; the tooltip is replaced in both the `checking` and `updating`
cases. -/
def overlayIconAndTooltip (updateState : UpdateState)
    (base : List String × Tooltip) : List String × Tooltip :=
  match updateState with
  | .idle => base
  | .checking series =>
      (base.1 ++ ["0p", seriesColors series], .toggleChecking)
  | .updating series totalProgress =>
      let parts :=
        if "error" ∈ base.1 then base.1
        else
          base.1 ++
            [toString (jsRound (totalProgress * 5) * 20) ++ "p",
              seriesColors series]
      (parts, .toggleDownloading series (jsRound (totalProgress * 100)))

/-- Lines 147–158 of `doUpdateBrowserAction`: the condition under which the
warning badge is shown and the tooltip replaced by the update-error
message — some major series is not `ok`, `updateError` is set, and its name
is neither `AbortError` nor `QuotaExceededError`. -/
def showsUpdateError (st : BrowserActionState) : Bool :=
  (allMajorDataSeries.any fun series =>
      st.jpdictState.seriesState series != .ok) &&
    match st.jpdictState.updateError with
    | some e => e.name != "AbortError" && e.name != "QuotaExceededError"
    | none => false

/-- The visual outputs derived by one run of `doUpdateBrowserAction`:
icon filename, final tooltip, badge text and badge background color. -/
structure DerivedVisual where
  iconFilename : String
  tooltip : Tooltip
  badgeText : String
  badgeColor : Option String
  deriving DecidableEq, Repr

/-- The full icon filename parts computed by `doUpdateBrowserAction`
(base plus update-progress overlay). -/
def iconFilenameParts (st : BrowserActionState) : List String :=
  (overlayIconAndTooltip st.jpdictState.updateState (baseIconAndTooltip st)).1

/-- The pure derivation performed by `doUpdateBrowserAction`: icon filename
(`iconFilenameParts.join('-')`), tooltip after the update-error override, and
badge text / background color. -/
def deriveVisual (st : BrowserActionState) : DerivedVisual :=
  let base := baseIconAndTooltip st
  let overlaid := overlayIconAndTooltip st.jpdictState.updateState base
  let iconFilename := String.intercalate "-" overlaid.1
  if showsUpdateError st then
    { iconFilename := iconFilename
      tooltip := .toggleUpdateError
      badgeText := "!"
      badgeColor := some "yellow" }
  else
    { iconFilename := iconFilename
      tooltip := overlaid.2
      badgeText := ""
      badgeColor := none }

/-- One host-surface side effect issued by `doUpdateBrowserAction` or
`setIcon`: effects against `browser.browserAction` carry the `tabId`;
effects against the optional `browser.composeAction` surface do not.
`throttledSetTitle` is the title update routed through the `throttle`
wrapper; `composeSetTitle` is the direct `composeAction.setTitle` call. -/
inductive Effect
  | setIcon (iconFilename : String) (tabId : Option Int)
  | composeSetIcon (iconFilename : String)
  | setBadgeText (text : String) (tabId : Option Int)
  | composeSetBadgeText (text : String)
  | setBadgeBackgroundColor (color : String) (tabId : Option Int)
  | composeSetBadgeBackgroundColor (color : String)
  | throttledSetTitle (title : Tooltip) (tabId : Option Int)
  | composeSetTitle (title : Tooltip)
  deriving DecidableEq, Repr

/-- `setIcon(iconFilename, tabId)` (lines 177–195): sets the icon on the
browser action and, when present, the compose action.  Whether the SVG or
the PNG paths are used does not change which filename is applied, so the
effect records the filename. -/
def setIconEffects (iconFilename : String) (tabId : Option Int) :
    List Effect :=
  [.setIcon iconFilename tabId, .composeSetIcon iconFilename]

/-- The sequence of host-surface effects performed by one
`doUpdateBrowserAction` cycle, in program order: set the icon, set the badge
text (and, when the update-error condition holds, the badge background
color), then set the title — through the throttle wrapper on the browser
action, directly on the compose action. -/
def doUpdateBrowserAction (st : BrowserActionState) : List Effect :=
  let v := deriveVisual st
  let badgeEffects : List Effect :=
    if showsUpdateError st then
      [.setBadgeText "!" st.tabId, .composeSetBadgeText "!",
        .setBadgeBackgroundColor "yellow" st.tabId,
        .composeSetBadgeBackgroundColor "yellow"]
    else
      [.setBadgeText "" st.tabId, .composeSetBadgeText ""]
  setIconEffects v.iconFilename st.tabId ++ badgeEffects ++
    [.throttledSetTitle v.tooltip st.tabId, .composeSetTitle v.tooltip]

/-- `setDefaultToolbarIcon` (lines 201–205): the startup default icon.
Note the branch: `toolbarIcon === 'sky' ? '10ten-disabled' :
'10ten-sky-disabled'`. -/
def setDefaultToolbarIcon (toolbarIcon : ToolbarIcon) : String :=
  if toolbarIcon = .sky then "10ten-disabled" else "10ten-sky-disabled"

/-- The coalescer's control position.  `updateBrowserAction` keeps a
module-level `currentUpdate : { next?: BrowserActionState } | undefined`:
`idle` is `currentUpdate === undefined`; `rendering cur pending` is the loop
awaiting `doUpdateBrowserAction cur` with `currentUpdate.next = pending`. -/
inductive CoalescerPos
  | idle
  | rendering (cur : BrowserActionState) (pending : Option BrowserActionState)
  deriving DecidableEq, Repr

/-- The coalescer state together with the list of snapshots whose render
cycle has started, in order (the observable render history). -/
structure Coalescer where
  pos : CoalescerPos
  renders : List BrowserActionState
  deriving DecidableEq, Repr

/-- `updateBrowserAction(params)` (lines 28–56), up to its first suspension
point: if `currentUpdate` is set the new snapshot only overwrites
`currentUpdate.next`; otherwise the async loop starts and begins a render
cycle for the snapshot. -/
def submit (params : BrowserActionState) (m : Coalescer) : Coalescer :=
  match m.pos with
  | .idle => { pos := .rendering params none, renders := m.renders ++ [params] }
  | .rendering cur _ => { m with pos := .rendering cur (some params) }

/-- Completion of the awaited `doUpdateBrowserAction` call in the loop of
`updateBrowserAction` (lines 42–54).  `ok` records whether the awaited call
succeeded or threw; the `try … catch { /* ignore */ }` makes the transition
identical in both cases: the loop reads `currentUpdate.next`, starts a cycle
for it when set, and otherwise clears `currentUpdate` and stops. -/
def finishCycle (ok : Bool) (m : Coalescer) : Coalescer :=
  match ok, m.pos with
  | _, .idle => m
  | _, .rendering _ none => { m with pos := .idle }
  | _, .rendering _ (some next) =>
      { pos := .rendering next none, renders := m.renders ++ [next] }

/-- Fold a list of submissions over the coalescer state. -/
def submitAll (params : List BrowserActionState) (m : Coalescer) : Coalescer :=
  params.foldl (fun m p => submit p m) m

/-- Modelled from the spec: the `throttle` utility
(`src/utils/throttle.ts`, imported at the top of `browser-action.ts` but not
among the provided sources), per §4.1: the wrapper state is the time of the
last actual effect execution and the most recently supplied arguments of a
deferred (pending) invocation, if any. -/
structure ThrottleState (α : Type) where
  lastRun : Option Int
  pendingArgs : Option α
  deriving DecidableEq, Repr

/-- Modelled from the spec (§4.1): one call of the rate-limited wrapper at
time `t` with arguments `a`.  First, if a deferred invocation's timer
(armed for `lastRun + minIntervalMs`) has already fired by `t`, the effect
runs at that time with the pending arguments.  Then: if no prior execution
occurred within `minIntervalMs` of `t`, the effect runs immediately with
`a`; otherwise the call is deferred, replacing any pending invocation.
Returns the new state and the effect executions (time, arguments) this call
makes observable. -/
def throttleCall {α : Type} (minIntervalMs : Int) (st : ThrottleState α)
    (t : Int) (a : α) : ThrottleState α × List (Int × α) :=
  match st.lastRun, st.pendingArgs with
  | some r, some p =>
      if r + minIntervalMs ≤ t then
        -- the armed timer fired at `r + minIntervalMs`, running the effect
        -- with the pending arguments; the call itself is then handled
        -- against that execution time
        if t - (r + minIntervalMs) < minIntervalMs then
          (⟨some (r + minIntervalMs), some a⟩, [(r + minIntervalMs, p)])
        else (⟨some t, none⟩, [(r + minIntervalMs, p), (t, a)])
      else (⟨some r, some a⟩, [])
  | some r, none =>
      if t - r < minIntervalMs then (⟨some r, some a⟩, [])
      else (⟨some t, none⟩, [(t, a)])
  | none, _ => (⟨some t, none⟩, [(t, a)])

/-- Modelled from the spec (§4.1): run a chronological list of calls
`(time, arguments)` from a given wrapper state; after the last call, a still
pending invocation fires when its timer (set for `minIntervalMs` after the
last actual execution) elapses.  Returns every effect execution in order. -/
def throttleRunFrom {α : Type} (minIntervalMs : Int) (st : ThrottleState α) :
    List (Int × α) → List (Int × α)
  | [] =>
      match st.lastRun, st.pendingArgs with
      | some r, some p => [(r + minIntervalMs, p)]
      | _, _ => []
  | (t, a) :: calls =>
      (throttleCall minIntervalMs st t a).2 ++
        throttleRunFrom minIntervalMs (throttleCall minIntervalMs st t a).1 calls

/-- Whether an effect sets a title (on either surface). -/
def Effect.isTitleUpdate : Effect → Bool
  | .throttledSetTitle _ _ => true
  | .composeSetTitle _ => true
  | _ => false

/-- Whether an effect goes through the `throttle` rate limiter.  In
`browser-action.ts` only `throttledSetTitle` is a throttled call; every
other host-surface call is made directly. -/
def Effect.viaRateLimiter : Effect → Bool
  | .throttledSetTitle _ _ => true
  | _ => false

/-- Whether an effect sets the title of the primary browser-action
surface. -/
def Effect.isPrimaryTitleUpdate : Effect → Bool
  | .throttledSetTitle _ _ => true
  | _ => false

/-- Whether an effect sets a badge background color (on either surface). -/
def Effect.isBadgeColorUpdate : Effect → Bool
  | .setBadgeBackgroundColor _ _ => true
  | .composeSetBadgeBackgroundColor _ => true
  | _ => false

/-- A jpdict state with every database loaded and no update in progress. -/
def jsAllOk : JpdictStateWithFallback where
  words := ⟨.ok, .unloaded⟩
  kanji := ⟨.ok⟩
  names := ⟨.ok⟩
  radicals := ⟨.ok⟩
  updateState := .idle
  updateError := none

/-- A snapshot with every database loaded, the feature enabled and the
default icon style. -/
def snapAllOk : BrowserActionState where
  enabled := true
  jpdictState := jsAllOk
  tabId := none
  toolbarIcon := .default

/-- A disabled snapshot with no update in progress, parametrized by the
icon style. -/
def snapDisabledIdle (toolbarIcon : ToolbarIcon) : BrowserActionState where
  enabled := false
  jpdictState := jsAllOk
  tabId := none
  toolbarIcon := toolbarIcon

/-- A disabled snapshot while an update check is running: used to compare
the derived tooltip against the disabled message. -/
def snapDisabledChecking : BrowserActionState where
  enabled := false
  jpdictState := { jsAllOk with updateState := .checking .words }
  tabId := none
  toolbarIcon := .default

/-- An enabled snapshot whose `words` database (and its fallback) failed to
load, so the base icon carries the `error` suffix, while an update check is
running. -/
def snapErrorChecking : BrowserActionState where
  enabled := true
  jpdictState :=
    { words := ⟨.error, .error⟩
      kanji := ⟨.ok⟩
      names := ⟨.ok⟩
      radicals := ⟨.ok⟩
      updateState := .checking .words
      updateError := none }
  tabId := none
  toolbarIcon := .default

/-- The same error-base snapshot during an `updating` phase. -/
def snapErrorUpdating : BrowserActionState :=
  { snapErrorChecking with
    jpdictState :=
      { snapErrorChecking.jpdictState with
        updateState := .updating .words (1 / 2) } }

/-- An enabled all-ok snapshot downloading the `words` series at 43%
total progress. -/
def snapUpdating43 : BrowserActionState where
  enabled := true
  jpdictState := { jsAllOk with updateState := .updating .words (43 / 100) }
  tabId := none
  toolbarIcon := .default

theorem submitAll_while_rendering (subs : List BrowserActionState) :
    ∀ (cur last : BrowserActionState) (p : Option BrowserActionState)
      (rs : List BrowserActionState), subs.getLast? = some last →
      submitAll subs ⟨.rendering cur p, rs⟩ =
        ⟨.rendering cur (some last), rs⟩ := by
  induction subs with
  | nil => intro cur last p rs h; simp at h
  | cons a t ih =>
    intro cur last p rs h
    cases t with
    | nil =>
      simp at h
      subst h
      simp [submitAll, submit]
    | cons b t' =>
      rw [List.getLast?_cons_cons] at h
      have : submitAll (a :: b :: t') ⟨.rendering cur p, rs⟩ =
          submitAll (b :: t') ⟨.rendering cur (some a), rs⟩ := by
        simp [submitAll, submit]
      rw [this]
      exact ih cur last (some a) rs h

/-- C1: while a render cycle is running, each further submission only
overwrites the pending slot (no cycle is started), so N submissions while a
cycle runs schedule exactly one additional cycle, which renders the last of
the N; after that cycle completes the coalescer is idle. -/
theorem coalescer_coalesces_to_last (cur last : BrowserActionState)
    (rs subs : List BrowserActionState) (h : subs.getLast? = some last) :
    submitAll subs ⟨.rendering cur none, rs⟩ =
      ⟨.rendering cur (some last), rs⟩ ∧
    finishCycle true (submitAll subs ⟨.rendering cur none, rs⟩) =
      ⟨.rendering last none, rs ++ [last]⟩ ∧
    finishCycle true (finishCycle true
        (submitAll subs ⟨.rendering cur none, rs⟩)) =
      ⟨.idle, rs ++ [last]⟩ := by
  have h1 := submitAll_while_rendering subs cur last none rs h
  refine ⟨h1, ?_, ?_⟩ <;> rw [h1] <;> rfl

theorem coalescer_coalesces_to_last_witness :
    submitAll [snapDisabledIdle .default, snapDisabledIdle .sky]
        ⟨.rendering snapAllOk none, []⟩ =
      ⟨.rendering snapAllOk (some (snapDisabledIdle .sky)), []⟩ ∧
    finishCycle true (submitAll [snapDisabledIdle .default, snapDisabledIdle .sky]
        ⟨.rendering snapAllOk none, []⟩) =
      ⟨.rendering (snapDisabledIdle .sky) none, [snapDisabledIdle .sky]⟩ ∧
    finishCycle true (finishCycle true
        (submitAll [snapDisabledIdle .default, snapDisabledIdle .sky]
          ⟨.rendering snapAllOk none, []⟩)) =
      ⟨.idle, [snapDisabledIdle .sky]⟩ := by
  have h := coalescer_coalesces_to_last snapAllOk (snapDisabledIdle .sky) []
    [snapDisabledIdle .default, snapDisabledIdle .sky] (by rfl)
  simpa using h

/-- C7: the `try … catch` around `doUpdateBrowserAction` makes the loop
transition identical whether the awaited cycle succeeded or threw: a failed
cycle still checks the pending slot, starts a cycle for any pending
snapshot, and resets the coalescer to idle once drained. -/
theorem cycle_failure_swallowed (ok : Bool) (cur : BrowserActionState)
    (pending : Option BrowserActionState) (rs : List BrowserActionState) :
    finishCycle ok ⟨.rendering cur pending, rs⟩ =
      finishCycle true ⟨.rendering cur pending, rs⟩ ∧
    finishCycle ok ⟨.rendering cur none, rs⟩ = ⟨.idle, rs⟩ ∧
    ∀ p, pending = some p →
      finishCycle ok ⟨.rendering cur pending, rs⟩ =
        ⟨.rendering p none, rs ++ [p]⟩ ∧
      finishCycle true (finishCycle ok ⟨.rendering cur pending, rs⟩) =
        ⟨.idle, rs ++ [p]⟩ := by
  refine ⟨?_, ?_, ?_⟩
  · cases ok <;> cases pending <;> rfl
  · cases ok <;> rfl
  · rintro p rfl
    cases ok <;> exact ⟨rfl, rfl⟩

theorem cycle_failure_swallowed_witness :
    finishCycle false
        ⟨.rendering snapAllOk (some (snapDisabledIdle .default)), []⟩ =
      ⟨.rendering (snapDisabledIdle .default) none, [snapDisabledIdle .default]⟩ ∧
    finishCycle false ⟨.rendering snapAllOk none, []⟩ = ⟨.idle, []⟩ :=
  ⟨((cycle_failure_swallowed false snapAllOk (some (snapDisabledIdle .default))
      []).2.2 _ rfl).1,
    (cycle_failure_swallowed false snapAllOk none []).2.1⟩

/-- C10: `setDefaultToolbarIcon` assigns the style modifier the opposite
way round to the per-snapshot derivation: the `sky` preference yields the
filename without the `sky` part and the `default` preference the filename
with it, while `doUpdateBrowserAction` on a disabled, idle snapshot derives
the converse filenames. -/
theorem setDefaultToolbarIcon_swapped_style :
    setDefaultToolbarIcon .sky = "10ten-disabled" ∧
    setDefaultToolbarIcon .default = "10ten-sky-disabled" ∧
    (deriveVisual (snapDisabledIdle .sky)).iconFilename =
      setDefaultToolbarIcon .default ∧
    (deriveVisual (snapDisabledIdle .default)).iconFilename =
      setDefaultToolbarIcon .sky := by decide

/-- C2 counterexample: for a disabled snapshot with an update check in
progress, the derived tooltip is the checking message, not the disabled
message — the update-progress overlay replaces the tooltip even when the
feature is disabled. -/
theorem disabled_tooltip_overridden_by_checking :
    snapDisabledChecking.enabled = false ∧
    showsUpdateError snapDisabledChecking = false ∧
    (deriveVisual snapDisabledChecking).tooltip = .toggleChecking ∧
    (deriveVisual snapDisabledChecking).tooltip ≠ .toggleDisabled := by
  decide

/-- C2 amended: for every snapshot with `enabled = false` the icon gets the
`disabled` suffix regardless of the update-progress state; the tooltip is
the disabled message when the update-progress state is `idle` (and the
update-error override does not apply), while the `checking` and `updating`
overlays replace the tooltip. -/
theorem disabled_base_derivation (st : BrowserActionState)
    (h : st.enabled = false) :
    "disabled" ∈ iconFilenameParts st ∧
    (st.jpdictState.updateState = .idle → showsUpdateError st = false →
      (deriveVisual st).tooltip = .toggleDisabled) := by
  obtain ⟨en, js, tab, icon⟩ := st
  obtain ⟨w, k, n, r, us, ue⟩ := js
  simp only at h
  subst h
  constructor
  · cases us <;> cases icon <;>
      simp [iconFilenameParts, overlayIconAndTooltip, baseIconAndTooltip]
  · intro hus hne
    simp only at hus
    subst hus
    simp [deriveVisual, hne, overlayIconAndTooltip, baseIconAndTooltip]

theorem disabled_base_derivation_witness :
    "disabled" ∈ iconFilenameParts (snapDisabledIdle .default) ∧
    (deriveVisual (snapDisabledIdle .default)).tooltip = .toggleDisabled :=
  ⟨(disabled_base_derivation (snapDisabledIdle .default) rfl).1,
    (disabled_base_derivation (snapDisabledIdle .default) rfl).2 rfl (by decide)⟩

theorem baseTooltip_ne_updateError (st : BrowserActionState) :
    (baseIconAndTooltip st).2 ≠ .toggleUpdateError := by
  obtain ⟨en, js, tab, icon⟩ := st
  obtain ⟨⟨ws, fs⟩, k, n, r, us, ue⟩ := js
  cases en <;> cases ws <;> cases fs <;> cases icon <;>
    simp [baseIconAndTooltip]

theorem overlayTooltip_ne_updateError (us : UpdateState)
    (b : List String × Tooltip) (h : b.2 ≠ .toggleUpdateError) :
    (overlayIconAndTooltip us b).2 ≠ .toggleUpdateError := by
  cases us <;> simp [overlayIconAndTooltip, h]

/-- C3: the warning badge (`!`, yellow) is shown and the tooltip overridden
to the update-error message exactly when some major series is not `ok`, an
update error is recorded, and its name is neither `AbortError` nor
`QuotaExceededError`; otherwise the badge text is set to the empty string,
no badge color is set, and the tooltip is not the update-error message. -/
theorem badge_warning_iff_update_error (st : BrowserActionState) :
    (deriveVisual st).badgeText = (if showsUpdateError st then "!" else "") ∧
    (deriveVisual st).badgeColor =
      (if showsUpdateError st then some "yellow" else none) ∧
    decide ((deriveVisual st).tooltip = .toggleUpdateError) =
      showsUpdateError st ∧
    (doUpdateBrowserAction st).any Effect.isBadgeColorUpdate =
      showsUpdateError st := by
  have hne := overlayTooltip_ne_updateError st.jpdictState.updateState
    (baseIconAndTooltip st) (baseTooltip_ne_updateError st)
  cases h : showsUpdateError st <;>
    simp [deriveVisual, doUpdateBrowserAction, setIconEffects, h, hne,
      Effect.isBadgeColorUpdate]

/-- C4 counterexample: with an error base icon and an update check in
progress, the `checking` overlay still appends its `0p` progress suffix —
the error-suffix guard applies only to the `updating` overlay. -/
theorem checking_overlay_ignores_error_base :
    "error" ∈ (baseIconAndTooltip snapErrorChecking).1 ∧
    iconFilenameParts snapErrorChecking = ["10ten", "error", "0p", "green"] ∧
    "0p" ∈ iconFilenameParts snapErrorChecking := by decide

/-- C4 amended: when the base step selected the error icon suffix, the
`updating` overlay adds no progress suffix to the icon filename, but the
`checking` overlay still appends its `0p` suffix and series color. -/
theorem error_base_blocks_updating_suffix_only (st : BrowserActionState)
    (h : "error" ∈ (baseIconAndTooltip st).1) :
    (∀ series tp, st.jpdictState.updateState = .updating series tp →
      iconFilenameParts st = (baseIconAndTooltip st).1) ∧
    (∀ series, st.jpdictState.updateState = .checking series →
      iconFilenameParts st =
        (baseIconAndTooltip st).1 ++ ["0p", seriesColors series]) := by
  constructor
  · rintro series tp hus
    simp [iconFilenameParts, overlayIconAndTooltip, hus, h]
  · rintro series hus
    simp [iconFilenameParts, overlayIconAndTooltip, hus]

theorem error_base_blocks_updating_suffix_only_witness :
    iconFilenameParts snapErrorUpdating =
      (baseIconAndTooltip snapErrorUpdating).1 ∧
    iconFilenameParts snapErrorUpdating = ["10ten", "error"] := by
  have h := (error_base_blocks_updating_suffix_only snapErrorUpdating
    (by decide)).1 .words (1 / 2) rfl
  exact ⟨h, h.trans (by decide)⟩

theorem baseParts_style (en : Bool) (js : JpdictStateWithFallback)
    (tab : Option Int) :
    (baseIconAndTooltip ⟨en, js, tab, .sky⟩).1 =
      "10ten" :: "sky" ::
        ((baseIconAndTooltip ⟨en, js, tab, .default⟩).1).tail ∧
    (baseIconAndTooltip ⟨en, js, tab, .default⟩).1 =
      "10ten" :: ((baseIconAndTooltip ⟨en, js, tab, .default⟩).1).tail := by
  obtain ⟨⟨ws, fs⟩, k, n, r, us, ue⟩ := js
  cases en <;> cases ws <;> cases fs <;> exact ⟨rfl, rfl⟩

/-- C9: the `sky` style preference inserts the `sky` modifier directly
after the base icon name `10ten`, leaving every other filename part
unchanged: the modifier is appended to the base name, not a replacement of
it, and it precedes the state and progress suffixes. -/
theorem style_modifier_orthogonal (st : BrowserActionState) :
    iconFilenameParts { st with toolbarIcon := .sky } =
      "10ten" :: "sky" ::
        (iconFilenameParts { st with toolbarIcon := .default }).tail ∧
    iconFilenameParts { st with toolbarIcon := .default } =
      "10ten" :: (iconFilenameParts { st with toolbarIcon := .default }).tail := by
  obtain ⟨en, js, tab, icon⟩ := st
  have hbase := baseParts_style en js tab
  have hsky := hbase.1
  have hdef := hbase.2
  have hb10 : ("error" : String) ≠ "10ten" := by decide
  have hbsky : ("error" : String) ≠ "sky" := by decide
  show iconFilenameParts ⟨en, js, tab, .sky⟩ = _ ∧
    iconFilenameParts ⟨en, js, tab, .default⟩ = _
  unfold iconFilenameParts
  cases hus : js.updateState with
  | idle =>
      rw [overlayIconAndTooltip, overlayIconAndTooltip]
      exact ⟨hsky, hdef⟩
  | checking series =>
      rw [overlayIconAndTooltip, overlayIconAndTooltip]
      rw [hsky, hdef]
      simp
  | updating series tp =>
      rw [overlayIconAndTooltip, overlayIconAndTooltip]
      rw [hsky, hdef]
      by_cases he : "error" ∈
          ((baseIconAndTooltip ⟨en, js, tab, .default⟩).1).tail <;>
        simp [he, hb10, hbsky]

/-- C5: in the `updating` variant (with `totalProgress` in `[0,1]` and a
non-error base icon) the progress suffix appended to the icon filename
parts is `Math.round(totalProgress*5)*20` followed by `p`, colored per the
fixed series table: words green, names blue, kanji and radicals purple. -/
theorem updating_progress_bucket (st : BrowserActionState)
    (series : DataSeries) (tp : ℚ)
    (hus : st.jpdictState.updateState = .updating series tp)
    (_h0 : 0 ≤ tp) (_h1 : tp ≤ 1)
    (hne : "error" ∉ (baseIconAndTooltip st).1) :
    iconFilenameParts st = (baseIconAndTooltip st).1 ++
      [toString (jsRound (tp * 5) * 20) ++ "p", seriesColors series] ∧
    seriesColors .words = "green" ∧ seriesColors .names = "blue" ∧
    seriesColors .kanji = "purple" ∧ seriesColors .radicals = "purple" := by
  refine ⟨?_, rfl, rfl, rfl, rfl⟩
  simp [iconFilenameParts, hus, overlayIconAndTooltip, hne]

unseal Rat.mul Rat.add Rat.inv in
theorem updating_progress_bucket_witness :
    (0 : ℚ) ≤ 43 / 100 ∧ (43 : ℚ) / 100 ≤ 1 ∧
    iconFilenameParts snapUpdating43 = ["10ten", "40p", "green"] ∧
    (deriveVisual snapUpdating43).iconFilename = "10ten-40p-green" := by
  have h := updating_progress_bucket snapUpdating43 .words (43 / 100) rfl
    (by norm_num) (by norm_num) (by decide)
  exact ⟨by norm_num, by norm_num, h.1.trans (by decide), by decide⟩

/-- C6 counterexample: the title is not set exclusively through the rate
limiter — `doUpdateBrowserAction` also sets the compose-action title
directly (`browser.composeAction?.setTitle`), so its effect trace contains
a title update that does not go through the throttle wrapper. -/
theorem compose_title_set_directly :
    Effect.composeSetTitle .toggleEnabled ∈ doUpdateBrowserAction snapAllOk ∧
    ((doUpdateBrowserAction snapAllOk).all fun e =>
      !e.isTitleUpdate || e.viaRateLimiter) = false := by decide

/-- C6 amended: in every render cycle the primary browser-action title is
the only effect routed through the rate limiter (exactly one throttled
effect per cycle, and every throttled effect is a primary title update),
icon and badge effects are all applied directly, and the one remaining
title update — the compose-action title — is applied directly as well. -/
theorem title_only_rate_limited_effect (st : BrowserActionState) :
    ((doUpdateBrowserAction st).all fun e =>
      e.viaRateLimiter == e.isPrimaryTitleUpdate) = true ∧
    (doUpdateBrowserAction st).countP (fun e => e.viaRateLimiter) = 1 ∧
    (doUpdateBrowserAction st).countP
      (fun e => e.isTitleUpdate && !e.viaRateLimiter) = 1 := by
  cases h : showsUpdateError st <;>
    simp [doUpdateBrowserAction, setIconEffects, h, Effect.viaRateLimiter,
      Effect.isPrimaryTitleUpdate, Effect.isTitleUpdate, List.countP_cons,
      List.countP_append]

/-- C8: a call to the rate-limited wrapper made within `minIntervalMs` of
the last actual effect execution is deferred, replacing any pending
invocation and producing no execution; and, concretely, two calls arriving
100ms apart while a 2500ms window is open result in exactly one execution,
with the second call's arguments, exactly 2500ms after the last actual
execution. -/
theorem throttle_latest_args_win {α : Type} :
    (∀ (minIntervalMs r t : Int) (p0 : Option α) (a : α),
      r ≤ t → t < r + minIntervalMs →
      throttleCall minIntervalMs ⟨some r, p0⟩ t a = (⟨some r, some a⟩, [])) ∧
    (∀ (r t1 : Int) (a1 a2 : α), r ≤ t1 → t1 + 100 < r + 2500 →
      throttleRunFrom 2500 ⟨some r, none⟩ [(t1, a1), (t1 + 100, a2)] =
        [(r + 2500, a2)]) := by
  constructor
  · intro minIntervalMs r t p0 a h1 h2
    cases p0 with
    | none =>
        simp only [throttleCall]
        rw [if_pos (by omega)]
    | some p =>
        simp only [throttleCall]
        rw [if_neg (by omega)]
  · intro r t1 a1 a2 h1 h2
    have c1 : throttleCall 2500 (⟨some r, none⟩ : ThrottleState α) t1 a1 =
        (⟨some r, some a1⟩, []) := by
      simp only [throttleCall]
      rw [if_pos (by omega)]
    have c2 : throttleCall 2500 (⟨some r, some a1⟩ : ThrottleState α)
        (t1 + 100) a2 = (⟨some r, some a2⟩, []) := by
      simp only [throttleCall]
      rw [if_neg (by omega)]
    simp [throttleRunFrom, c1, c2]

theorem throttle_latest_args_win_witness :
    throttleCall 2500 (⟨some 0, some 1⟩ : ThrottleState Nat) 100 2 =
      (⟨some 0, some 2⟩, []) ∧
    throttleRunFrom 2500 (⟨some 0, none⟩ : ThrottleState Nat)
      [(0, 1), (100, 2)] = [(2500, 2)] := by
  have h := @throttle_latest_args_win Nat
  refine ⟨h.1 2500 0 100 (some 1) 2 (by norm_num) (by norm_num), ?_⟩
  have h2 := h.2 0 0 1 2 le_rfl (by norm_num)
  simpa using h2
